import Mathlib

/-!
Verification of the Punjab_Crop_Advisory prediction code.

This file shallowly embeds the parts of the repository that the checked
properties talk about:

* `src/Punjab_Crop_Advisory/src/prediction.py`
  (`CropYieldPredictor.engineer_features`, `CropYieldPredictor.predict_yield`,
  `CropYieldPredictor._categorize_yield`, `CropYieldPredictor._get_recommendations`)
  in namespace `Prediction`;
* `src/Punjab_Crop_Advisory/models/prediction_function.py` (`predict_crop_yield`)
  in namespace `PredictionFunction`;
* `src/Punjab_Crop_Advisory/crop_prediction_api.py` (`estimate_parameters`,
  `get_crop_recommendations`, `get_crop_specific_tips`, and the feature-array /
  interval logic of the `/api/v1/predict` endpoint) in namespace `CropApi`.

Python floats are modelled as `ℚ`; the Python builtin `round(x, n)` as round-half-to-even
at `n` decimal digits; Python dictionaries of heterogeneous values as
`String → Option PyVal`.  Fallible Python code (statements that can raise
`TypeError`, `KeyError`, `ZeroDivisionError`, or exceptions from the pickled
sklearn objects) is modelled in the `Except String` monad.  The pickled model
objects themselves are not part of the repository, so `model.predict`,
`scaler.transform` and the label encoders appear as abstract function
parameters; `np.std` is characterised by its defining property (the
nonnegative square root of the population variance).
-/

/-! ### String helpers

Core `String` functions (`String.map`, `String.endsWith`, `String.replace`)
do not reduce well in the kernel, so the Python string operations are
re-implemented over `String.data` (the underlying character list). -/

/-- Python `str.lower()` (ASCII, which covers every string the code uses). -/
def pyLower (s : String) : String := ⟨s.data.map Char.toLower⟩

/-- One step of Python `str.title()`: the boolean says whether the previous
character was alphabetic. -/
def titleGo : Bool → List Char → List Char
  | _, [] => []
  | prevAlpha, c :: cs =>
    (if c.isAlpha then (if prevAlpha then Char.toLower c else Char.toUpper c) else c)
      :: titleGo c.isAlpha cs

/-- Python `str.title()` (ASCII). -/
def pyTitle (s : String) : String := ⟨titleGo false s.data⟩

/-- Python `str.endswith(suffix)`. -/
def strEndsWith (s suffix : String) : Bool := suffix.data.isSuffixOf s.data

/-- Fuel-driven replacement of every occurrence of `pat` in a character list.
The fuel is the length of the scanned list, which suffices because each step
consumes at least one character (the patterns used in the code are nonempty). -/
def replFuel (pat rep : List Char) : ℕ → List Char → List Char
  | _, [] => []
  | 0, l => l
  | n + 1, c :: cs =>
    if pat.isPrefixOf (c :: cs) then rep ++ replFuel pat rep n ((c :: cs).drop pat.length)
    else c :: replFuel pat rep n cs

/-- Python `s.replace(pat, rep)` for nonempty `pat` (the code only ever uses
the pattern `"_encoded"`). -/
def strReplace (s pat rep : String) : String := ⟨replFuel pat.data rep.data s.data.length s.data⟩

/-! ### Rounding

The Python builtin `round(x, n)` rounds half to even.  `rndTE q` is the
round-half-to-even nearest integer of a rational. -/

/-- Round half to even to the nearest integer. -/
def rndTE (q : ℚ) : ℤ :=
  if q - ⌊q⌋ < 1/2 then ⌊q⌋
  else if 1/2 < q - ⌊q⌋ then ⌊q⌋ + 1
  else if ⌊q⌋ % 2 = 0 then ⌊q⌋ else ⌊q⌋ + 1

/-- Python `round(q, n)`. -/
def pyRound (n : ℕ) (q : ℚ) : ℚ := (rndTE (q * 10 ^ n) : ℚ) / 10 ^ n

/-! ### Python values and dictionaries -/

/-- A Python value as it occurs in the prediction input dictionaries:
either a number (float/int, modelled as `ℚ`) or a string.  (Booleans and
nested containers never occur in the modelled code paths.) -/
inductive PyVal where
  | num (q : ℚ)
  | str (s : String)
deriving DecidableEq

/-- A Python dictionary with string keys. -/
def Dict := String → Option PyVal

/-- Python `d.get(k, default)`. -/
def dget (d : Dict) (k : String) (dflt : PyVal) : PyVal := (d k).getD dflt

/-- Adding / overwriting one key, as in a `{**d, k: v}` literal. -/
def dinsert (d : Dict) (k : String) (v : PyVal) : Dict :=
  fun x => if x = k then some v else d x

/-- Python `str(v)`.  The exact float formatting of Python is irrelevant to
every property proved below (label encoders are abstract); numbers are
rendered with the Lean `ℚ` representation. -/
def pyStr : PyVal → String
  | .str s => s
  | .num q => toString q

/-- Fetch `d.get(k, dflt)` and use it as a number; a string value raises
`TypeError` at the first arithmetic operation or comparison, which is what
every caller below immediately performs. -/
def getNum (d : Dict) (k : String) (dflt : ℚ) : Except String ℚ :=
  match d k with
  | none => .ok dflt
  | some (.num q) => .ok q
  | some (.str _) => .error "TypeError"

/-- Use an already-fetched value as a number (`TypeError` otherwise). -/
def asNum : PyVal → Except String ℚ
  | .num q => .ok q
  | .str _ => .error "TypeError"

/-- Use an already-fetched value as a string; Python raises
`AttributeError` when `.lower()` is called on a number. -/
def asStr : PyVal → Except String String
  | .str s => .ok s
  | .num _ => .error "AttributeError"

/-- Python `d[k]` read as a number: `KeyError` when absent, `TypeError` when
the value is a string and immediately used arithmetically. -/
def getItemNum (d : Dict) (k : String) : Except String ℚ :=
  match d k with
  | none => .error "KeyError"
  | some (.num q) => .ok q
  | some (.str _) => .error "TypeError"

/-- Python division: `ZeroDivisionError` on a zero denominator. -/
def pyDiv (a b : ℚ) : Except String ℚ :=
  if b = 0 then .error "ZeroDivisionError" else .ok (a / b)

namespace Prediction

/-- The eleven keys written by `CropYieldPredictor.engineer_features`
(`src/Punjab_Crop_Advisory/src/prediction.py`, lines 73-86). -/
def derivedKeys : List String :=
  ["vegetation_health_score", "soil_fertility_index", "heat_stress", "cold_stress",
   "drought_risk", "yield_potential_score", "N_P_ratio", "N_K_ratio", "P_K_ratio",
   "is_kharif", "is_rabi"]

/-- Embedding of `CropYieldPredictor.engineer_features` (prediction.py, lines 31-88).
Every numeric use of a fetched value can raise `TypeError` on a string value,
and the nutrient ratios can raise `ZeroDivisionError`; `rainfall < 1 and
humidity < 40` short-circuits, so `humidity` is only coerced when
`rainfall < 1`. -/
def engineer_features (input_data : Dict) : Except String Dict := do
  let ndvi ← getNum input_data "ndvi_mean" 0.6
  let ndwi ← getNum input_data "ndwi_mean" 0.3
  let vegetation_health_score := ndvi * 0.7 + ndwi * 0.3
  let oc ← getNum input_data "organic_carbon" 0.5
  let n_avail ← getNum input_data "N_available" 180
  let p_avail ← getNum input_data "P_available" 15
  let soil_fertility_index := oc / 1.0 * 0.4 + n_avail / 300 * 0.3 + p_avail / 30 * 0.3
  let temp ← getNum input_data "temperature" 25
  let heat_stress := max 0 ((temp - 35) / 10)
  let cold_stress := max 0 ((10 - temp) / 10)
  let rainfall ← asNum (dget input_data "rainfall" (.num 0))
  let humidityVal := dget input_data "humidity" (.num 70)
  let drought_risk ←
    if rainfall < 1 then do
      let humidity ← asNum humidityVal
      if humidity < 40 then pure (1 - humidity / 100) else pure (0 : ℚ)
    else pure (0 : ℚ)
  let k_avail ← getNum input_data "K_available" 250
  let n_p_ratio ← pyDiv n_avail (p_avail + 1)
  let n_k_ratio ← pyDiv n_avail (k_avail + 1)
  let p_k_ratio ← pyDiv p_avail (k_avail + 1)
  let yield_potential_score :=
    vegetation_health_score * 0.35 + soil_fertility_index * 0.40 +
      (1 - heat_stress - drought_risk) * 0.25
  let crop_type_encoded := dget input_data "crop_type_encoded" (.num 0)
  let is_kharif : ℚ :=
    if crop_type_encoded = .num 1 ∨ crop_type_encoded = .num 2 then 1 else 0
  let is_rabi : ℚ := 1 - is_kharif
  let d1 := dinsert input_data "vegetation_health_score" (.num vegetation_health_score)
  let d2 := dinsert d1 "soil_fertility_index" (.num soil_fertility_index)
  let d3 := dinsert d2 "heat_stress" (.num heat_stress)
  let d4 := dinsert d3 "cold_stress" (.num cold_stress)
  let d5 := dinsert d4 "drought_risk" (.num drought_risk)
  let d6 := dinsert d5 "yield_potential_score" (.num yield_potential_score)
  let d7 := dinsert d6 "N_P_ratio" (.num n_p_ratio)
  let d8 := dinsert d7 "N_K_ratio" (.num n_k_ratio)
  let d9 := dinsert d8 "P_K_ratio" (.num p_k_ratio)
  let d10 := dinsert d9 "is_kharif" (.num is_kharif)
  let d11 := dinsert d10 "is_rabi" (.num is_rabi)
  pure d11

end Prediction

namespace Prediction

/-- One step of the feature-assembly loop of
`CropYieldPredictor.predict_yield` (prediction.py, lines 121-140).
The result pairs the value appended to `features` with whether the feature
was appended to `missing_features`.  A label encoder is an abstract
`PyVal → Option ℤ`; `none` models `transform` raising on an unseen category,
which the code turns into the silent default `0`.  The predictor calls
`transform([str(value)])`, hence the `.str (pyStr v)` argument. -/
def featureStep (encoders : List (String × (PyVal → Option ℤ))) (complete_input : Dict)
    (feature : String) : PyVal × Bool :=
  if strEndsWith feature "_encoded" then
    let original_col := strReplace feature "_encoded" ""
    match encoders.lookup original_col, complete_input original_col with
    | some enc, some v =>
      (match enc (.str (pyStr v)) with
       | some z => .num z
       | none => .num 0, false)
    | some _, none => (.num 0, true)
    | none, _ => (.num 0, true)
  else
    match complete_input feature with
    | some v => (v, false)
    | none => (.num 0, true)

/-- The feature-assembly loop of `CropYieldPredictor.predict_yield`
(prediction.py, lines 117-140): the `features` list and the
`missing_features` list, built in schema order. -/
def prepare_features (encoders : List (String × (PyVal → Option ℤ))) (complete_input : Dict) :
    List String → List PyVal × List String
  | [] => ([], [])
  | f :: rest =>
    let s := featureStep encoders complete_input f
    let r := prepare_features encoders complete_input rest
    (s.1 :: r.1, (if s.2 then [f] else []) ++ r.2)

/-- The condition under which the loop of `predict_yield` appends the default
`0` AND records the feature in `missing_features`: for an `_encoded` feature,
no encoder or no base column; for a numeric feature, an absent key. -/
def usesDefault (encoders : List (String × (PyVal → Option ℤ))) (d : Dict)
    (feature : String) : Bool :=
  if strEndsWith feature "_encoded" then
    let original_col := strReplace feature "_encoded" ""
    !((encoders.lookup original_col).isSome && (d original_col).isSome)
  else (d feature).isNone

/-- The condition under which the loop of `predict_yield` appends a default
`0` instead of a data-derived value, whether or not the feature is recorded in
`missing_features`.  This is `usesDefault` plus the silent unseen-category
fallback of the encoder branch. -/
def fellBack (encoders : List (String × (PyVal → Option ℤ))) (d : Dict)
    (feature : String) : Bool :=
  if strEndsWith feature "_encoded" then
    let original_col := strReplace feature "_encoded" ""
    match encoders.lookup original_col, d original_col with
    | some enc, some v => (enc (.str (pyStr v))).isNone
    | some _, none => true
    | none, _ => true
  else (d feature).isNone

/-- Embedding of `CropYieldPredictor._categorize_yield` (prediction.py, lines 190-214). -/
def categorize_yield (yield_val : ℚ) (crop_type : String) : String :=
  if pyLower crop_type = "wheat" then
    if yield_val ≥ 4500 then "High"
    else if yield_val ≥ 3500 then "Medium"
    else "Low"
  else if pyLower crop_type = "rice" then
    if yield_val ≥ 6000 then "High"
    else if yield_val ≥ 5000 then "Medium"
    else "Low"
  else if pyLower crop_type = "cotton" then
    if yield_val ≥ 500 then "High"
    else if yield_val ≥ 350 then "Medium"
    else "Low"
  else "Unknown"

/-- Rank of a category in the Low < Medium < High ordering ("Unknown" only
ever compares with itself, so its rank value is immaterial). -/
def catRank : String → ℕ
  | "Low" => 0
  | "Medium" => 1
  | "High" => 2
  | _ => 3

/-- Embedding of `CropYieldPredictor._get_recommendations` (prediction.py, lines 216-264).
Direct `features[...]` subscripts can raise `KeyError`; every comparison can
raise `TypeError` on a string value; the short-circuit structure of the
crop-specific branch (crop test before the feature access) is preserved. -/
def get_recommendations (features : Dict) (crop_type : String) :
    Except String (List String) := do
  let heat ← getItemNum features "heat_stress"
  let r1 := if heat > 0.2 then
    ["High heat stress detected - consider heat-resistant varieties and adequate irrigation"]
    else []
  let drought ← getItemNum features "drought_risk"
  let r2 := if drought > 0.2 then
    ["Drought risk present - ensure adequate irrigation and water management"] else []
  let soil ← getItemNum features "soil_fertility_index"
  let r3 := if soil < 0.5 then
    ["Low soil fertility - consider applying balanced fertilizers (NPK)"] else []
  let veg ← getItemNum features "vegetation_health_score"
  let r4 := if veg < 0.4 then
    ["Poor vegetation health - check plant nutrition and pest management"] else []
  let npRatio ← getItemNum features "N_P_ratio"
  let r5 := if npRatio > 15 then
    ["High N:P ratio - consider phosphorus supplementation"]
    else if npRatio < 5 then ["Low N:P ratio - consider nitrogen supplementation"] else []
  let pH ← getNum features "pH" 7.0
  let r6 := if pH < 6.5 then
    ["Acidic soil - consider lime application to improve pH"]
    else if pH > 8.5 then ["Highly alkaline soil - consider gypsum application"] else []
  let r7 ←
    if pyLower crop_type = "wheat" then do
      let temp ← getItemNum features "temperature"
      pure (if temp > 25 then
        ["Temperature stress for wheat - consider early sowing next season"] else [])
    else if pyLower crop_type = "rice" then do
      let rain ← getNum features "rainfall" 0
      pure (if rain < 2 then
        ["Insufficient water for rice - ensure adequate irrigation"] else [])
    else if pyLower crop_type = "cotton" then do
      let temp ← getItemNum features "temperature"
      pure (if temp < 20 then
        ["Temperature too low for cotton - ensure proper timing"] else [])
    else pure []
  let recommendations := r1 ++ r2 ++ r3 ++ r4 ++ r5 ++ r6 ++ r7
  if recommendations = [] then do
    let yps ← getItemNum features "yield_potential_score"
    pure (if yps > 0.7 then ["Excellent growing conditions - maintain current practices"]
      else ["Good conditions overall - minor optimizations can improve yield"])
  else pure recommendations

/-- The pickled model package of `CropYieldPredictor`.  The sklearn objects
inside the pickle are not part of the repository: `model` (i.e.
`model.predict` on one row), the sub-estimators exposed by `estimators_`, the
`scaler.transform`, and the label encoders are abstract functions; an
`Except` error models any exception they raise. -/
structure ModelPackage where
  model_name : String
  feature_names : List String
  label_encoders : List (String × (PyVal → Option ℤ))
  scaler : Option (List PyVal → Except String (List PyVal))
  use_scaling : Bool
  model : List PyVal → Except String ℚ
  estimators : Option (List (List PyVal → Except String ℚ))

/-- The five rounded engineered features reported in the success dictionary
of `predict_yield` (prediction.py, lines 176-182). -/
structure EngineeredSummary where
  vegetation_health_score : ℚ
  soil_fertility_index : ℚ
  yield_potential_score : ℚ
  heat_stress : ℚ
  drought_risk : ℚ
deriving DecidableEq

/-- The success dictionary of `predict_yield` (prediction.py, lines 169-185). -/
structure PredictionSuccess where
  predicted_yield : ℚ
  lower_bound : ℚ
  upper_bound : ℚ
  confidence_interval : String
  yield_category : String
  model_used : String
  engineered_features : EngineeredSummary
  recommendations : List String
  missing_features_count : ℕ

/-- The value returned by `predict_yield`: either a dictionary with an
`error` key, or the full success dictionary. -/
inductive PredictResult where
  | failure (msg : String)
  | success (r : PredictionSuccess)

/-- Read one of the engineered keys back for the `engineered_features`
summary, applying `round(., 3)`. -/
def engSummaryItem (complete_input : Dict) (k : String) : Except String ℚ := do
  let v ← getItemNum complete_input k
  pure (pyRound 3 v)

/-- The body of the `try:` block of `CropYieldPredictor.predict_yield`
(prediction.py, lines 107-185).  `npStd` abstracts `np.std` on the
sub-estimator predictions. -/
def predictBody (mp : ModelPackage) (npStd : List ℚ → ℚ) (input_data : Dict) :
    Except String PredictionSuccess := do
  let complete_input ← engineer_features input_data
  let fm := prepare_features mp.label_encoders complete_input mp.feature_names
  let features_array ←
    if mp.use_scaling then
      match mp.scaler with
      | some transform => transform fm.1
      | none => pure fm.1
    else pure fm.1
  let prediction ← mp.model features_array
  let prediction_std ←
    match mp.estimators with
    | some ests => do
      let predictions ← ests.mapM (fun estimator => estimator features_array)
      pure (npStd predictions)
    | none => pure (prediction * 0.1)
  let lower_bound := prediction - 1.96 * prediction_std
  let upper_bound := prediction + 1.96 * prediction_std
  let crop_type ← asStr (dget input_data "crop_type" (.str "Unknown"))
  let yield_category := categorize_yield prediction crop_type
  let veg ← engSummaryItem complete_input "vegetation_health_score"
  let soil ← engSummaryItem complete_input "soil_fertility_index"
  let yps ← engSummaryItem complete_input "yield_potential_score"
  let heat ← engSummaryItem complete_input "heat_stress"
  let drought ← engSummaryItem complete_input "drought_risk"
  let recommendations ← get_recommendations complete_input crop_type
  pure
    { predicted_yield := pyRound 1 prediction
      lower_bound := pyRound 1 (max 0 lower_bound)
      upper_bound := pyRound 1 upper_bound
      confidence_interval := "95%"
      yield_category := yield_category
      model_used := mp.model_name
      engineered_features := ⟨veg, soil, yps, heat, drought⟩
      recommendations := recommendations
      missing_features_count := fm.2.length }

/-- Embedding of `CropYieldPredictor.predict_yield` (prediction.py, lines 90-188):
the guard for an unloaded model package, and the `try/except` wrapper that
converts any exception into an error dictionary. -/
def predict_yield (model_package : Option ModelPackage) (npStd : List ℚ → ℚ)
    (input_data : Dict) : PredictResult :=
  match model_package with
  | none => .failure "Model not loaded"
  | some mp =>
    match predictBody mp npStd input_data with
    | .error e => .failure ("Prediction failed: " ++ e)
    | .ok r => .success r

end Prediction

namespace PredictionFunction

/-- One step of the feature loop of `predict_crop_yield`
(`models/prediction_function.py`, lines 35-49).  Unlike the predictor class,
this version passes the raw dictionary value to `transform` (no `str(...)`)
and keeps no record of missing features; numeric features use
`input_data.get(feature, 0)`. -/
def featureValue (encoders : List (String × (PyVal → Option ℤ))) (input_data : Dict)
    (feature : String) : PyVal :=
  if strEndsWith feature "_encoded" then
    let original_col := strReplace feature "_encoded" ""
    match encoders.lookup original_col, input_data original_col with
    | some enc, some v =>
      (match enc v with
       | some z => .num z
       | none => .num 0)
    | some _, none => .num 0
    | none, _ => .num 0
  else dget input_data feature (.num 0)

/-- The `features` list built by the loop of `predict_crop_yield`
(`models/prediction_function.py`, lines 33-49): one appended value per entry
of `feature_names`, in schema order. -/
def prepare_features (encoders : List (String × (PyVal → Option ℤ))) (input_data : Dict)
    (feature_names : List String) : List PyVal :=
  feature_names.map (featureValue encoders input_data)

/-- Mean of a list of rationals (`np.mean`). -/
def npMean (l : List ℚ) : ℚ := l.sum / l.length

/-- Population variance of a list of rationals: the square of `np.std`
(numpy default `ddof=0`).  `np.std predictions` is exactly the nonnegative
rational/real whose square is `npVariance predictions`. -/
def npVariance (l : List ℚ) : ℚ := ((l.map fun x => (x - npMean l) ^ 2).sum) / l.length

/-- The three numeric fields of the dictionary returned by
`predict_crop_yield` (`models/prediction_function.py`, lines 61-80), given
the model prediction and `prediction_std`. -/
structure YieldInterval where
  predicted_yield : ℚ
  lower_bound : ℚ
  upper_bound : ℚ
deriving DecidableEq

/-- Lines 66-77 of `models/prediction_function.py`: the 95% interval from a
given `prediction_std`, with the lower bound clamped at `max(0, ...)` and
every reported value passed through `round(., 1)`.  The ensemble branch uses
`prediction_std = np.std(predictions)`; the flat branch uses
`prediction_std = prediction * 0.1`. -/
def interval_from_std (prediction prediction_std : ℚ) : YieldInterval :=
  let lower_bound := prediction - 1.96 * prediction_std
  let upper_bound := prediction + 1.96 * prediction_std
  { predicted_yield := pyRound 1 prediction
    lower_bound := pyRound 1 (max 0 lower_bound)
    upper_bound := pyRound 1 upper_bound }

/-- The flat-10%-uncertainty branch (`models/prediction_function.py`,
lines 68-72). -/
def flat_interval (prediction : ℚ) : YieldInterval :=
  interval_from_std prediction (prediction * 0.1)

end PredictionFunction

namespace CropApi

/-- The dictionary returned by `estimate_parameters`
(`crop_prediction_api.py`, lines 551-572). -/
structure EstimatedParams where
  year : ℤ
  latitude : ℚ
  longitude : ℚ
  season : String
  sowing_month : ℕ
  temperature : ℚ
  humidity : ℚ
  rainfall : ℚ
  wind_speed : ℚ
  pH : ℚ
  organic_carbon : ℚ
  N_available : ℚ
  P_available : ℚ
  K_available : ℚ
  ndvi_mean : ℚ
  ndwi_mean : ℚ
  blue : ℚ
  green : ℚ
  red : ℚ
  nir : ℚ
deriving DecidableEq

/-- Rabi crop membership table (`crop_prediction_api.py`, line 507). -/
def rabi_crops : List String := ["wheat", "barley", "mustard", "potato", "peas"]

/-- Kharif crop membership table (`crop_prediction_api.py`, line 508). -/
def kharif_crops : List String := ["rice", "corn", "maize", "cotton", "soybean", "sugarcane"]

/-- Embedding of `estimate_parameters` (`crop_prediction_api.py`, lines 500-572), with the
year supplied explicitly (the `datetime.now()` default is outside the model).
The `district` argument is unused by the source body. -/
def estimate_parameters (crop district : String) (latitude longitude : ℚ) (year : ℤ) :
    EstimatedParams :=
  let season := if pyLower crop ∈ rabi_crops then "rabi"
    else if pyLower crop ∈ kharif_crops then "kharif"
    else "rabi"
  let sowing_month : ℕ := if pyLower crop ∈ rabi_crops then 11
    else if pyLower crop ∈ kharif_crops then 6
    else 11
  let lat_factor := (latitude - 31.0) * 0.4
  let lon_factor := (longitude - 75.5) * 0.3
  let temperature := if season = "rabi" then 22.0 + lat_factor else 28.0 + lat_factor
  let humidity := if season = "rabi" then 70.0 - |lat_factor| * 2 else 75.0 - |lat_factor|
  let rainfall := if season = "rabi" then 550.0 + lat_factor * 25 else 800.0 + lat_factor * 40
  let wind_speed := 8.0 + |lon_factor|
  let pH := 7.1 + (latitude - 31.0) * 0.1
  let organic_carbon := 0.6 + lon_factor * 0.05
  let N_available := 270.0 + lat_factor * 10
  let P_available := 22.0 + lon_factor * 2
  let K_available := 310.0 + lat_factor * 15
  { year := year
    latitude := latitude
    longitude := longitude
    season := season
    sowing_month := sowing_month
    temperature := pyRound 1 temperature
    humidity := pyRound 1 humidity
    rainfall := pyRound 0 rainfall
    wind_speed := pyRound 1 wind_speed
    pH := pyRound 1 pH
    organic_carbon := pyRound 2 organic_carbon
    N_available := pyRound 1 N_available
    P_available := pyRound 1 P_available
    K_available := pyRound 1 K_available
    ndvi_mean := 0.75
    ndwi_mean := 0.35
    blue := 0.08
    green := 0.12
    red := 0.15
    nir := 0.40 }

/-- The 39-entry feature array assembled in the `/api/v1/predict` endpoint
(`crop_prediction_api.py`, lines 640-680).  `crop_encoded` stands for
`hash(request.crop.lower()) % 100`, whose value depends on Python hash
randomisation; no property below depends on it.  Indices 19-21 are the
`season_Kharif` / `season_Rabi` / `season_Summer` indicators and indices
22-33 the `month_1` .. `month_12` indicators. -/
def api_features (acres latitude longitude : ℚ) (p : EstimatedParams)
    (crop_encoded : ℚ) : List ℚ :=
  [acres, latitude, longitude,
   p.temperature, p.humidity, p.rainfall, p.wind_speed, p.pH, p.organic_carbon,
   p.N_available, p.P_available, p.K_available, p.ndvi_mean, p.ndwi_mean,
   p.blue, p.green, p.red, p.nir,
   crop_encoded,
   if p.season = "Kharif" then 1 else 0,
   if p.season = "Rabi" then 1 else 0,
   if p.season = "Summer" then 1 else 0,
   if p.sowing_month = 1 then 1 else 0,
   if p.sowing_month = 2 then 1 else 0,
   if p.sowing_month = 3 then 1 else 0,
   if p.sowing_month = 4 then 1 else 0,
   if p.sowing_month = 5 then 1 else 0,
   if p.sowing_month = 6 then 1 else 0,
   if p.sowing_month = 7 then 1 else 0,
   if p.sowing_month = 8 then 1 else 0,
   if p.sowing_month = 9 then 1 else 0,
   if p.sowing_month = 10 then 1 else 0,
   if p.sowing_month = 11 then 1 else 0,
   if p.sowing_month = 12 then 1 else 0,
   2025, 1, 30.0, 0.8, 1.0]

/-- The confidence interval of the `/api/v1/predict` endpoint
(`crop_prediction_api.py`, lines 686-687): `(prediction * 0.85,
prediction * 1.15)`, with no clamping. -/
def api_bounds (prediction : ℚ) : ℚ × ℚ := (prediction * 0.85, prediction * 1.15)

end CropApi

namespace CropApi

/-- One entry of the `crop_database` literal of `get_crop_recommendations`
(`crop_prediction_api.py`, lines 195-268). -/
structure CropData where
  base_yield : ℚ
  seasons : List String
  min_temp : ℚ
  max_temp : ℚ
  water_requirement : String
  soil_ph : List ℚ
  profitability : String
  market_demand : String
deriving DecidableEq

/-- The `crop_database` dictionary, in insertion order
(`crop_prediction_api.py`, lines 195-268). -/
def crop_database : List (String × CropData) :=
  [("wheat", ⟨1800, ["rabi"], 15, 25, "medium", [6.5, 7.5], "High", "Very High"⟩),
   ("rice", ⟨2200, ["kharif"], 22, 35, "high", [6.0, 7.0], "High", "Very High"⟩),
   ("cotton", ⟨900, ["kharif"], 20, 35, "medium", [5.8, 8.0], "Very High", "High"⟩),
   ("maize", ⟨2000, ["kharif", "rabi"], 18, 32, "medium", [6.0, 7.5], "Medium", "High"⟩),
   ("sugarcane", ⟨2800, ["annual"], 20, 35, "very_high", [6.5, 7.5], "Very High", "High"⟩),
   ("mustard", ⟨1100, ["rabi"], 10, 25, "low", [6.0, 7.5], "Medium", "Medium"⟩),
   ("barley", ⟨1600, ["rabi"], 12, 22, "low", [6.0, 7.8], "Medium", "Medium"⟩),
   ("potato", ⟨2500, ["rabi"], 15, 25, "medium", [5.5, 6.5], "High", "Very High"⟩)]

/-- The `tips_database` of `get_crop_specific_tips`
(`crop_prediction_api.py`, lines 332-397). -/
def tips_database : List (String × List String) :=
  [("wheat",
    ["Plant wheat in November for optimal yield in Punjab climate",
     "Use certified seeds with 100-120 kg/acre seeding rate",
     "Apply balanced NPK fertilizer: 120:60:30 kg/acre",
     "Ensure 4-5 irrigations during growing season",
     "Monitor for rust diseases and apply fungicides if needed",
     "Harvest when moisture content is 20-25% for best quality"]),
   ("rice",
    ["Transplant 25-30 day old seedlings in June-July",
     "Maintain 2-3 cm water level throughout growing season",
     "Use recommended varieties like PR-126, PR-121 for Punjab",
     "Apply silicon fertilizer to strengthen stems",
     "Practice direct seeded rice (DSR) to save water",
     "Monitor for brown plant hopper and stem borer"]),
   ("cotton",
    ["Plant Bt cotton varieties approved for Punjab",
     "Sow in May for optimal fiber quality",
     "Maintain plant population of 80,000-100,000 plants/acre",
     "Deep plowing and good drainage essential",
     "Regular monitoring for pink bollworm required",
     "Harvest when 60% bolls are open for best fiber quality"]),
   ("maize",
    ["Use hybrid varieties for higher yield potential",
     "Plant with 60cm row spacing and 20cm plant distance",
     "Side-dress nitrogen at knee-high stage",
     "Ensure adequate moisture during tasseling and grain filling",
     "Monitor for fall armyworm and stem borer",
     "Harvest at 18-20% moisture for good storage"]),
   ("sugarcane",
    ["Plant healthy setts from 8-10 month old canes",
     "Ensure proper drainage to prevent water logging",
     "Apply organic manure before planting",
     "Regular earthing up and gap filling essential",
     "Monitor for red rot and smut diseases",
     "Harvest at optimal maturity (12 months) for maximum sugar"]),
   ("mustard",
    ["Sow in October for timely harvest before heat",
     "Use line sowing with 30cm row spacing",
     "Light irrigation during flowering stage",
     "Apply sulfur fertilizer for better oil content",
     "Monitor for aphids and white rust disease",
     "Harvest when pods turn brown but not fully dry"]),
   ("barley",
    ["Choose malting or feed varieties based on market",
     "Sow in November for avoiding heat stress",
     "Requires less water compared to wheat",
     "Apply moderate nitrogen to avoid lodging",
     "Good rotation crop after paddy",
     "Harvest when grain moisture is around 20%"]),
   ("potato",
    ["Use certified seed potatoes for disease-free crop",
     "Plant in raised beds for better drainage",
     "Hill up regularly to prevent greening of tubers",
     "Monitor soil moisture - avoid over and under watering",
     "Watch for late blight especially in humid conditions",
     "Harvest when skin is firm and doesn\x27t rub off easily"])]

/-- Embedding of `get_crop_specific_tips` (`crop_prediction_api.py`, lines 329-417). -/
def get_crop_specific_tips (crop_name : String) (latitude longitude farm_size : ℚ) :
    List String :=
  let crop_tips := (tips_database.lookup (pyLower crop_name)).getD
    ["Research best practices for " ++ crop_name ++ " cultivation",
     "Consult local agricultural extension officer for " ++ crop_name ++ " guidance",
     "Consider market prices before growing " ++ crop_name]
  let location_tips :=
    (if latitude > 31.5 then ["Your northern location is ideal for cool-season crops"]
     else if latitude < 30.5 then ["Your southern location suits warm-season crops better"]
     else []) ++
    (if farm_size ≥ 50 then ["Consider mechanization for large farm operations"]
     else if farm_size ≤ 5 then ["Focus on intensive cultivation methods for small farms"]
     else [])
  crop_tips ++ location_tips

/-- One `CropRecommendation` response object (`crop_prediction_api.py`,
lines 315-322). -/
structure CropRecommendation where
  crop_name : String
  suitability_score : ℚ
  expected_yield : ℚ
  profitability : String
  reasons : List String
  tips : List String
deriving DecidableEq

instance : Inhabited CropRecommendation := ⟨⟨"", 0, 0, "", [], []⟩⟩

/-- The Python sort key of `get_crop_recommendations`
(`crop_prediction_api.py`, line 325). -/
def recKey (r : CropRecommendation) : ℚ × ℚ := (r.suitability_score, r.expected_yield)

/-- Lexicographic order on pairs: Python tuple comparison. -/
def pairLe (p q : ℚ × ℚ) : Prop := p.1 < q.1 ∨ (p.1 = q.1 ∧ p.2 ≤ q.2)

instance : DecidableRel pairLe := fun p q =>
  inferInstanceAs (Decidable (p.1 < q.1 ∨ (p.1 = q.1 ∧ p.2 ≤ q.2)))

/-- Relation: `a` may precede `b` in the output of `recommendations.sort(key=...,
reverse=True)`: descending lexicographic comparison of the sort keys. -/
def recBefore (a b : CropRecommendation) : Prop := pairLe (recKey b) (recKey a)

instance : DecidableRel recBefore := fun a b =>
  inferInstanceAs (Decidable (pairLe (recKey b) (recKey a)))

instance : IsTotal CropRecommendation recBefore :=
  ⟨fun a b => by
    unfold recBefore pairLe
    rcases lt_trichotomy (recKey b).1 (recKey a).1 with h | h | h
    · exact Or.inl (Or.inl h)
    · rcases le_total (recKey b).2 (recKey a).2 with h2 | h2
      · exact Or.inl (Or.inr ⟨h, h2⟩)
      · exact Or.inr (Or.inr ⟨h.symm, h2⟩)
    · exact Or.inr (Or.inl h)⟩

instance : IsTrans CropRecommendation recBefore :=
  ⟨fun a b c h1 h2 => by
    unfold recBefore pairLe at h1 h2 ⊢
    rcases h2 with h | ⟨ha, hb⟩ <;> rcases h1 with g | ⟨ga, gb⟩
    · exact Or.inl (h.trans g)
    · exact Or.inl (ga ▸ h)
    · exact Or.inl (ha ▸ g)
    · exact Or.inr ⟨ha.trans ga, hb.trans gb⟩⟩

/-- Embedding of `get_crop_recommendations` (`crop_prediction_api.py`, lines 191-327).
The loop with its two `continue` guards is the `filter`/`map`; the stable
descending Python sort is `List.insertionSort` with `recBefore` (a stable
sort producing a `recBefore`-sorted permutation, which characterises
`list.sort(key=..., reverse=True)` extensionally). -/
def get_crop_recommendations (latitude longitude : ℚ) (current_crop : String)
    (farm_size : ℚ) (season : String) : List CropRecommendation :=
  let current_season := pyLower season
  let lat_factor := 1.0 + (latitude - 31.0) * 0.02
  let size_factor := min 1.2 (1.0 + (farm_size - 5.0) * 0.01)
  let recommendations := (crop_database.filter fun cd =>
    decide (pyLower cd.1 ≠ pyLower current_crop ∧
      (current_season ∈ cd.2.seasons ∨ "annual" ∈ cd.2.seasons))).map fun cd =>
    let suitability_score : ℚ := 0.7
      + (if 30.5 ≤ latitude ∧ latitude ≤ 31.5 ∧ 75.0 ≤ longitude ∧ longitude ≤ 76.5
         then 0.2 else 0)
      + (if farm_size ≥ 10 then 0.1 else 0)
    let expected_yield := cd.2.base_yield * lat_factor * size_factor
    let reasons :=
      (if cd.2.profitability = "High" ∨ cd.2.profitability = "Very High" then
        ["High profitability - " ++ cd.2.profitability ++ " returns expected"] else [])
      ++ (if cd.2.market_demand = "High" ∨ cd.2.market_demand = "Very High" then
        ["Strong market demand - " ++ cd.2.market_demand ++ " buyer interest"] else [])
      ++ (if cd.2.water_requirement = "low" then
        ["Water efficient - suitable for sustainable farming"] else [])
      ++ (if latitude > 31.0 ∧ cd.1 ∈ ["wheat", "rice"] then
        ["Excellent climate match for this region"] else [])
      ++ (if farm_size ≥ 20 ∧ cd.1 ∈ ["cotton", "sugarcane"] then
        ["Large farm size ideal for commercial cultivation"] else [])
    let tips := get_crop_specific_tips cd.1 latitude longitude farm_size
    { crop_name := pyTitle cd.1
      suitability_score := pyRound 2 (min 1.0 suitability_score)
      expected_yield := pyRound 1 expected_yield
      profitability := cd.2.profitability
      reasons := reasons.take 3
      tips := tips.take 3 }
  (List.insertionSort recBefore recommendations).take 5

end CropApi

/-- The dictionary shape produced by `engineer_features`: the input plus the
eleven derived keys in source order (with `is_rabi = 1 - is_kharif`). -/
def Prediction.engineeredDict (d : Dict) (v1 v2 v3 v4 v5 v6 v7 v8 v9 kh : ℚ) : Dict :=
  dinsert (dinsert (dinsert (dinsert (dinsert (dinsert (dinsert (dinsert (dinsert (dinsert (dinsert d
    "vegetation_health_score" (.num v1)) "soil_fertility_index" (.num v2))
    "heat_stress" (.num v3)) "cold_stress" (.num v4)) "drought_risk" (.num v5))
    "yield_potential_score" (.num v6)) "N_P_ratio" (.num v7)) "N_K_ratio" (.num v8))
    "P_K_ratio" (.num v9)) "is_kharif" (.num kh)) "is_rabi" (.num (1 - kh))

/-- The engineered dictionary obtained from the empty input dictionary, with
every derived value written as the exact source expression at the default
inputs (only used by the C10 witness). -/
def c10WitnessDict : Dict :=
  Prediction.engineeredDict (fun _ => none)
    (0.6 * 0.7 + 0.3 * 0.3)
    (0.5 / 1.0 * 0.4 + 180 / 300 * 0.3 + 15 / 30 * 0.3)
    (max 0 ((25 - 35) / 10))
    (max 0 ((10 - 25) / 10))
    0
    ((0.6 * 0.7 + 0.3 * 0.3) * 0.35 +
      (0.5 / 1.0 * 0.4 + 180 / 300 * 0.3 + 15 / 30 * 0.3) * 0.40 +
      (1 - max 0 ((25 - 35) / 10) - 0) * 0.25)
    (180 / (15 + 1)) (180 / (250 + 1)) (15 / (250 + 1)) 0

/-! ## Theorems -/

theorem floor_le_rndTE (q : ℚ) : ⌊q⌋ ≤ rndTE q := by
  unfold rndTE; split_ifs <;> omega

theorem rndTE_le_floor_add_one (q : ℚ) : rndTE q ≤ ⌊q⌋ + 1 := by
  unfold rndTE; split_ifs <;> omega

theorem rndTE_mono {a b : ℚ} (h : a ≤ b) : rndTE a ≤ rndTE b := by
  rcases lt_or_eq_of_le (Int.floor_le_floor h) with hlt | heq
  · calc rndTE a ≤ ⌊a⌋ + 1 := rndTE_le_floor_add_one a
      _ ≤ ⌊b⌋ := by omega
      _ ≤ rndTE b := floor_le_rndTE b
  · unfold rndTE
    rw [← heq]
    split_ifs <;> first | omega | linarith

theorem rndTE_nonneg {q : ℚ} (h : 0 ≤ q) : 0 ≤ rndTE q := by
  have h1 := floor_le_rndTE q
  have h2 : (0 : ℤ) ≤ ⌊q⌋ := Int.floor_nonneg.mpr h
  omega

theorem pyRound_mono (n : ℕ) {a b : ℚ} (h : a ≤ b) : pyRound n a ≤ pyRound n b := by
  unfold pyRound
  have hp : (0 : ℚ) < 10 ^ n := by positivity
  have hm : a * 10 ^ n ≤ b * 10 ^ n := by
    exact mul_le_mul_of_nonneg_right h (le_of_lt hp)
  have h2 : ((rndTE (a * 10 ^ n) : ℚ)) ≤ (rndTE (b * 10 ^ n) : ℚ) := by
    exact_mod_cast rndTE_mono hm
  gcongr

theorem pyRound_nonneg (n : ℕ) {q : ℚ} (h : 0 ≤ q) : 0 ≤ pyRound n q := by
  unfold pyRound
  have hp : (0 : ℚ) < 10 ^ n := by positivity
  have hq : 0 ≤ q * 10 ^ n := by positivity
  have := rndTE_nonneg hq
  positivity

/-- Round-half-to-even fixes a rational that is already an integer multiple
of `10 ^ (-n)`. -/
theorem pyRound_eq_self {n : ℕ} {q : ℚ} (z : ℤ) (hz : q * 10 ^ n = (z : ℚ)) :
    pyRound n q = q := by
  unfold pyRound rndTE
  rw [hz]
  have hfl : ⌊(z : ℚ)⌋ = z := Int.floor_intCast z
  rw [hfl]
  simp only [sub_self]
  rw [if_pos (by norm_num)]
  have hp : (0 : ℚ) < 10 ^ n := by positivity
  field_simp at hz ⊢
  linarith [hz]

theorem PredictionFunction.npVariance_nonneg (l : List ℚ) :
    0 ≤ PredictionFunction.npVariance l := by
  unfold PredictionFunction.npVariance
  apply div_nonneg
  · apply List.sum_nonneg
    intro x hx
    rcases List.mem_map.mp hx with ⟨a, _, rfl⟩
    positivity
  · exact_mod_cast Nat.zero_le _

/-! ### Claim C3 -/

/-- C3: for every crop name, location and explicitly supplied year,
`estimate_parameters` returns a season in {rabi, kharif} and a sowing month
in {6, 11}, determined solely by the fixed crop membership tables: rabi-table
crops map to ("rabi", 11), kharif-table crops to ("kharif", 6), and every
other crop defaults to ("rabi", 11). -/
theorem C3_estimate_parameters_season (crop district : String)
    (latitude longitude : ℚ) (year : ℤ) :
    ((CropApi.estimate_parameters crop district latitude longitude year).season = "rabi" ∨
      (CropApi.estimate_parameters crop district latitude longitude year).season = "kharif") ∧
    ((CropApi.estimate_parameters crop district latitude longitude year).sowing_month = 6 ∨
      (CropApi.estimate_parameters crop district latitude longitude year).sowing_month = 11) ∧
    ((CropApi.estimate_parameters crop district latitude longitude year).season,
      (CropApi.estimate_parameters crop district latitude longitude year).sowing_month) =
      (if pyLower crop ∈ CropApi.rabi_crops then ("rabi", 11)
       else if pyLower crop ∈ CropApi.kharif_crops then ("kharif", 6)
       else ("rabi", 11)) := by
  unfold CropApi.estimate_parameters
  by_cases h1 : pyLower crop ∈ CropApi.rabi_crops <;>
    by_cases h2 : pyLower crop ∈ CropApi.kharif_crops <;>
      simp [h1, h2]

/-! ### Claim C4 -/

/-- C4: `_categorize_yield` is monotone in the yield value for every fixed
crop type (Low < Medium < High; unknown crops are constantly "Unknown"), with
the wheat thresholds 4500/3500, the rice thresholds 6000/5000, the cotton
thresholds 500/350, and "Unknown" for every other crop type. -/
theorem C4_categorize_yield_monotone (crop_type : String) (y1 y2 : ℚ) (h : y1 ≤ y2) :
    Prediction.catRank (Prediction.categorize_yield y1 crop_type) ≤
      Prediction.catRank (Prediction.categorize_yield y2 crop_type) ∧
    (pyLower crop_type = "wheat" →
      Prediction.categorize_yield y1 crop_type =
        (if y1 ≥ 4500 then "High" else if y1 ≥ 3500 then "Medium" else "Low")) ∧
    (pyLower crop_type = "rice" →
      Prediction.categorize_yield y1 crop_type =
        (if y1 ≥ 6000 then "High" else if y1 ≥ 5000 then "Medium" else "Low")) ∧
    (pyLower crop_type = "cotton" →
      Prediction.categorize_yield y1 crop_type =
        (if y1 ≥ 500 then "High" else if y1 ≥ 350 then "Medium" else "Low")) ∧
    (pyLower crop_type ∉ (["wheat", "rice", "cotton"] : List String) →
      Prediction.categorize_yield y1 crop_type = "Unknown") := by
  unfold Prediction.categorize_yield
  refine ⟨?_, ?_, ?_, ?_, ?_⟩
  · split_ifs <;> simp [Prediction.catRank] <;> linarith
  · intro hw; simp [hw]
  · intro hw
    by_cases h1 : pyLower crop_type = "wheat" <;> simp_all
  · intro hw
    by_cases h1 : pyLower crop_type = "wheat" <;>
      by_cases h2 : pyLower crop_type = "rice" <;> simp_all
  · intro hw
    simp only [List.mem_cons, List.mem_singleton, not_or] at hw
    simp [hw.1, hw.2.1, hw.2.2.1]

/-- Witness for C4 at a concrete crop and pair of yields. -/
theorem C4_witness :
    Prediction.catRank (Prediction.categorize_yield 3600 "Wheat") ≤
      Prediction.catRank (Prediction.categorize_yield 4600 "Wheat") :=
  (C4_categorize_yield_monotone "Wheat" 3600 4600 (by norm_num)).1

/-! ### Claim C2 -/

/-- Chain of inequalities for the interval step, for a nonnegative prediction
and a nonnegative `prediction_std`. -/
theorem interval_from_std_chain (p s : ℚ) (hp : 0 ≤ p) (hs : 0 ≤ s) :
    (PredictionFunction.interval_from_std p s).lower_bound ≤
      (PredictionFunction.interval_from_std p s).predicted_yield ∧
    (PredictionFunction.interval_from_std p s).predicted_yield ≤
      (PredictionFunction.interval_from_std p s).upper_bound ∧
    0 ≤ (PredictionFunction.interval_from_std p s).lower_bound := by
  unfold PredictionFunction.interval_from_std
  simp only
  have hms : (0 : ℚ) ≤ 1.96 * s := by nlinarith
  refine ⟨?_, ?_, ?_⟩
  · exact pyRound_mono 1 (max_le (by linarith) (by linarith))
  · exact pyRound_mono 1 (by linarith)
  · exact pyRound_nonneg 1 (le_max_left 0 _)

/-- C2 counterexample: the claim quantifies over every finite model output,
but for a negative prediction (here `-100`) the flat-10%-uncertainty branch
of `predict_crop_yield` clamps the lower bound to `0`, which is strictly
greater than the reported `predicted_yield = -100`. -/
theorem C2_counterexample :
    ¬ ((PredictionFunction.flat_interval (-100)).lower_bound ≤
        (PredictionFunction.flat_interval (-100)).predicted_yield ∧
       (PredictionFunction.flat_interval (-100)).predicted_yield ≤
        (PredictionFunction.flat_interval (-100)).upper_bound) := by
  have h1 : (PredictionFunction.flat_interval (-100)).predicted_yield = -100 := by
    show pyRound 1 (-100) = -100
    exact pyRound_eq_self (-1000) (by norm_num)
  have h2 : (PredictionFunction.flat_interval (-100)).lower_bound = 0 := by
    show pyRound 1 (max 0 ((-100) - 1.96 * ((-100) * 0.1))) = 0
    have hmx : max (0 : ℚ) ((-100) - 1.96 * ((-100) * 0.1)) = 0 := by norm_num
    rw [hmx]
    exact pyRound_eq_self 0 (by norm_num)
  intro hcl
  rw [h1, h2] at hcl
  have := hcl.1
  norm_num at this

/-- C2 amended: for every nonnegative finite model output the prediction
result of `predict_crop_yield` satisfies
`lower_bound ≤ predicted_yield ≤ upper_bound` with `lower_bound ≥ 0`, in both
the ensemble branch (`prediction_std = np.std(predictions)`, characterised as
the nonnegative root of the population variance) and the
flat-10%-uncertainty branch, and the unclamped ±15% interval of the
`crop_prediction_api` endpoint likewise satisfies the chain with a
nonnegative lower bound.  (For a negative model output the zero-clamped lower
bound exceeds `predicted_yield`, and the API lower bound is negative, so the
original unrestricted claim fails: see the counterexample.) -/
theorem C2_bounds_of_nonneg_prediction (prediction prediction_std : ℚ)
    (predictions : List ℚ) (hp : 0 ≤ prediction) (hstd : 0 ≤ prediction_std)
    (hvar : prediction_std ^ 2 = PredictionFunction.npVariance predictions) :
    ((PredictionFunction.interval_from_std prediction prediction_std).lower_bound ≤
       (PredictionFunction.interval_from_std prediction prediction_std).predicted_yield ∧
     (PredictionFunction.interval_from_std prediction prediction_std).predicted_yield ≤
       (PredictionFunction.interval_from_std prediction prediction_std).upper_bound ∧
     0 ≤ (PredictionFunction.interval_from_std prediction prediction_std).lower_bound) ∧
    ((PredictionFunction.flat_interval prediction).lower_bound ≤
       (PredictionFunction.flat_interval prediction).predicted_yield ∧
     (PredictionFunction.flat_interval prediction).predicted_yield ≤
       (PredictionFunction.flat_interval prediction).upper_bound ∧
     0 ≤ (PredictionFunction.flat_interval prediction).lower_bound) ∧
    ((CropApi.api_bounds prediction).1 ≤ prediction ∧
     prediction ≤ (CropApi.api_bounds prediction).2 ∧
     0 ≤ (CropApi.api_bounds prediction).1) := by
  refine ⟨interval_from_std_chain prediction prediction_std hp hstd, ?_, ?_, ?_, ?_⟩
  · exact interval_from_std_chain prediction (prediction * 0.1) hp (by nlinarith)
  · show prediction * 0.85 ≤ prediction
    nlinarith
  · show prediction ≤ prediction * 1.15
    nlinarith
  · show 0 ≤ prediction * 0.85
    nlinarith

/-- Witness for C2 at `prediction = 1000`, `prediction_std = 0`,
`predictions = [7, 7]` (whose population variance is `0`). -/
theorem C2_witness :
    (PredictionFunction.interval_from_std 1000 0).lower_bound ≤
      (PredictionFunction.interval_from_std 1000 0).predicted_yield ∧
    0 ≤ (CropApi.api_bounds 1000).1 :=
  ⟨(C2_bounds_of_nonneg_prediction 1000 0 [7, 7] (by norm_num) (by norm_num)
      (by norm_num [PredictionFunction.npVariance, PredictionFunction.npMean])).1.1,
   (C2_bounds_of_nonneg_prediction 1000 0 [7, 7] (by norm_num) (by norm_num)
      (by norm_num [PredictionFunction.npVariance, PredictionFunction.npMean])).2.2.2.2⟩

/-! ### Claim C5 -/

/-- C5: evaluation of the endpoint feature vector at a concrete request
(crop "wheat", latitude 31, longitude 75.5, 5 acres).  `estimate_parameters`
returns the lowercase season `"rabi"`, but the feature array compares it
against the capitalised literals `"Kharif"`/`"Rabi"`/`"Summer"`, so all three
season indicator components (indices 19-21) are `0` — no component equals 1 —
while the twelve month indicators (indices 22-33) correctly one-hot the
sowing month 11. -/
theorem C5_season_indicators_never_fire :
    (((CropApi.api_features 5 31 (151/2)
        (CropApi.estimate_parameters "wheat" "Ludhiana" 31 (151/2) 2025) 7).drop 19).take 3 =
      [0, 0, 0]) ∧
    (((CropApi.api_features 5 31 (151/2)
        (CropApi.estimate_parameters "wheat" "Ludhiana" 31 (151/2) 2025) 7).drop 22).take 12 =
      [0, 0, 0, 0, 0, 0, 0, 0, 0, 0, 1, 0]) ∧
    (∀ (crop district : String) (latitude longitude : ℚ) (year : ℤ)
        (acres crop_encoded : ℚ),
      ((CropApi.api_features acres latitude longitude
          (CropApi.estimate_parameters crop district latitude longitude year)
          crop_encoded).drop 19).take 3 = [0, 0, 0]) := by
  refine ⟨by decide, by decide, ?_⟩
  intro crop district latitude longitude year acres crop_encoded
  unfold CropApi.api_features CropApi.estimate_parameters
  by_cases h1 : pyLower crop ∈ CropApi.rabi_crops <;>
    by_cases h2 : pyLower crop ∈ CropApi.kharif_crops <;>
      simp [h1, h2]

/-! ### Claim C1 -/

/-- The `features` list of the predictor loop is the elementwise image of the
schema. -/
theorem prepare_features_fst_eq_map (E : List (String × (PyVal → Option ℤ))) (d : Dict)
    (names : List String) :
    (Prediction.prepare_features E d names).1 =
      names.map (fun f => (Prediction.featureStep E d f).1) := by
  induction names with
  | nil => rfl
  | cons f rest ih => simp [Prediction.prepare_features, ih]

/-- A feature satisfying the default condition of the loop yields `0` in the
quick `predict_crop_yield` loop. -/
theorem featureValue_of_usesDefault (E : List (String × (PyVal → Option ℤ))) (d : Dict)
    (f : String) (h : Prediction.usesDefault E d f = true) :
    PredictionFunction.featureValue E d f = .num 0 := by
  unfold Prediction.usesDefault at h
  unfold PredictionFunction.featureValue
  by_cases he : strEndsWith f "_encoded" = true
  · simp only [he, if_true] at h ⊢
    rcases hl : (E.lookup (strReplace f "_encoded" "")) with _ | enc <;>
      rcases hd : d (strReplace f "_encoded" "") with _ | v <;>
        simp_all
  · simp only [Bool.not_eq_true] at he
    simp [he] at h ⊢
    unfold dget
    rcases hd : d f with _ | v <;> simp_all

/-- A feature satisfying the default condition of the loop yields `0` and a
`missing_features` entry in the predictor loop. -/
theorem featureStep_of_usesDefault (E : List (String × (PyVal → Option ℤ))) (d : Dict)
    (f : String) (h : Prediction.usesDefault E d f = true) :
    Prediction.featureStep E d f = (.num 0, true) := by
  unfold Prediction.usesDefault at h
  unfold Prediction.featureStep
  by_cases he : strEndsWith f "_encoded" = true
  · simp only [he, if_true] at h ⊢
    rcases hl : (E.lookup (strReplace f "_encoded" "")) with _ | enc <;>
      rcases hd : d (strReplace f "_encoded" "") with _ | v <;>
        simp_all
  · simp only [Bool.not_eq_true] at he
    simp only [he] at h ⊢
    rcases hd : d f with _ | v <;> simp_all

/-- C1: for every input dictionary, encoder table and schema, the feature
list built before prediction has exactly one entry per schema feature name —
in both `predict_crop_yield` (models/prediction_function.py) and
`CropYieldPredictor.predict_yield` (src/prediction.py) — and every feature
satisfying the absent/unmatched condition contributes the default `0` at its
own schema position instead of being skipped. -/
theorem C1_feature_list_length_and_defaults
    (E : List (String × (PyVal → Option ℤ))) (d : Dict) (feature_names : List String) :
    (PredictionFunction.prepare_features E d feature_names).length = feature_names.length ∧
    (Prediction.prepare_features E d feature_names).1.length = feature_names.length ∧
    (∀ i f, feature_names.get? i = some f → Prediction.usesDefault E d f = true →
      (PredictionFunction.prepare_features E d feature_names).get? i = some (.num 0) ∧
      (Prediction.prepare_features E d feature_names).1.get? i = some (.num 0)) := by
  refine ⟨List.length_map _ _, ?_, ?_⟩
  · rw [prepare_features_fst_eq_map, List.length_map]
  · intro i f hi hdef
    constructor
    · unfold PredictionFunction.prepare_features
      rw [List.get?_map, hi]
      simp [featureValue_of_usesDefault E d f hdef]
    · rw [prepare_features_fst_eq_map, List.get?_map, hi]
      simp [featureStep_of_usesDefault E d f hdef]

/-- Witness for C1: empty dictionary and encoder table, a numeric and an
encoded schema feature; both loops yield the default `0` in both positions
and a list of length 2. -/
theorem C1_witness :
    (PredictionFunction.prepare_features [] (fun _ => none) ["foo", "bar_encoded"]).get? 0 =
      some (.num 0) ∧
    (Prediction.prepare_features [] (fun _ => none) ["foo", "bar_encoded"]).1.get? 1 =
      some (.num 0) :=
  ⟨((C1_feature_list_length_and_defaults [] (fun _ => none) ["foo", "bar_encoded"]).2.2
      0 "foo" rfl (by decide)).1,
   ((C1_feature_list_length_and_defaults [] (fun _ => none) ["foo", "bar_encoded"]).2.2
      1 "bar_encoded" rfl (by decide)).2⟩

/-! ### Claim C6 -/

/-- The `missing_features` flag of one loop step is exactly the
encoder-or-column-missing / absent-key condition. -/
theorem featureStep_snd_eq_usesDefault (E : List (String × (PyVal → Option ℤ))) (d : Dict)
    (f : String) : (Prediction.featureStep E d f).2 = Prediction.usesDefault E d f := by
  unfold Prediction.featureStep Prediction.usesDefault
  by_cases he : strEndsWith f "_encoded" = true
  · simp only [he, if_true]
    rcases hl : (E.lookup (strReplace f "_encoded" "")) with _ | enc <;>
      rcases hd : d (strReplace f "_encoded" "") with _ | v <;>
        simp_all
  · simp only [Bool.not_eq_true] at he
    simp [he]
    rcases hd : d f with _ | v <;> simp_all

/-- An unseen categorical value (encoder present, base column present, but
`transform` raising) produces the silent default `0` and is not flagged as
missing. -/
theorem featureStep_unseen (E : List (String × (PyVal → Option ℤ))) (d : Dict)
    (f : String) (enc : PyVal → Option ℤ) (v : PyVal)
    (he : strEndsWith f "_encoded" = true)
    (hl : E.lookup (strReplace f "_encoded" "") = some enc)
    (hd : d (strReplace f "_encoded" "") = some v)
    (hu : enc (.str (pyStr v)) = none) :
    Prediction.featureStep E d f = (.num 0, false) := by
  unfold Prediction.featureStep
  simp [he, hl, hd, hu]

/-- C6: the length of `missing_features` equals the number of schema features
satisfying the default condition of the loop. -/
theorem prepare_features_snd_length (E : List (String × (PyVal → Option ℤ))) (d : Dict)
    (names : List String) :
    (Prediction.prepare_features E d names).2.length =
      (names.filter (Prediction.usesDefault E d)).length := by
  induction names with
  | nil => rfl
  | cons f rest ih =>
    simp only [Prediction.prepare_features, List.filter_cons]
    rw [featureStep_snd_eq_usesDefault]
    by_cases h : Prediction.usesDefault E d f = true <;> simp [h, ih]

/-- C6 (amended): in the feature loop of `CropYieldPredictor.predict_yield`,
an `_encoded` schema feature whose base-column value is unseen by the label
encoder gets the value `0` silently, without an error and without being
flagged as missing; and `missing_features_count` equals the number of schema
features defaulted because the encoder or the base column was missing
(encoded case) or the key was absent (numeric case) — NOT the number of all
features that fell back to a default (unseen-category fallbacks are
excluded; see the counterexample). -/
theorem C6_unseen_encoding_and_missing_count
    (E : List (String × (PyVal → Option ℤ))) (d : Dict) (names : List String) :
    (Prediction.prepare_features E d names).2.length =
      (names.filter (Prediction.usesDefault E d)).length ∧
    (∀ i f enc v, names.get? i = some f → strEndsWith f "_encoded" = true →
      E.lookup (strReplace f "_encoded" "") = some enc →
      d (strReplace f "_encoded" "") = some v →
      enc (.str (pyStr v)) = none →
      (Prediction.prepare_features E d names).1.get? i = some (.num 0) ∧
      Prediction.usesDefault E d f = false) := by
  refine ⟨prepare_features_snd_length E d names, ?_⟩
  intro i f enc v hi he hl hd hu
  constructor
  · rw [prepare_features_fst_eq_map, List.get?_map, hi]
    simp [featureStep_unseen E d f enc v he hl hd hu]
  · unfold Prediction.usesDefault
    simp [he, hl, hd]

/-- C6 counterexample to the claim as stated: with one encoded schema
feature whose encoder rejects the present base-column value, the feature
falls back to the default `0` (so one feature "fell back to a default value"
during assembly) yet `missing_features_count` is `0`. -/
theorem C6_counterexample :
    ¬ ((Prediction.prepare_features [("crop", fun _ => none)]
          (fun k => if k = "crop" then some (.str "quinoa") else none)
          ["crop_encoded"]).2.length =
        (["crop_encoded"].filter
          (Prediction.fellBack [("crop", fun _ => none)]
            (fun k => if k = "crop" then some (.str "quinoa") else none))).length) := by
  decide

/-- Witness for C6 at the same concrete encoder table and dictionary. -/
theorem C6_witness :
    (Prediction.prepare_features [("crop", fun _ => none)]
        (fun k => if k = "crop" then some (.str "quinoa") else none)
        ["crop_encoded"]).1.get? 0 = some (.num 0) ∧
    Prediction.usesDefault [("crop", fun _ => none)]
        (fun k => if k = "crop" then some (.str "quinoa") else none) "crop_encoded" = false :=
  (C6_unseen_encoding_and_missing_count [("crop", fun _ => none)]
      (fun k => if k = "crop" then some (.str "quinoa") else none) ["crop_encoded"]).2
    0 "crop_encoded" (fun _ => none) (.str "quinoa") rfl (by decide) rfl rfl rfl

/-! ### Claim C7 -/

/-- C7: `CropYieldPredictor.predict_yield` never propagates an exception.
With an unloaded package it returns the error dictionary `"Model not
loaded"`; otherwise the result is either an error dictionary (when any step
of the `try:` body raises) or the full success dictionary — never a partial
success object.  Any error of the body surfaces as `"Prediction failed: "`
plus the exception text, and a successful body is returned unchanged. -/
theorem C7_predict_yield_error_shape (mp : Prediction.ModelPackage)
    (npStd : List ℚ → ℚ) (input_data : Dict) :
    (Prediction.predict_yield none npStd input_data =
      Prediction.PredictResult.failure "Model not loaded") ∧
    ((∃ msg, Prediction.predict_yield (some mp) npStd input_data =
        Prediction.PredictResult.failure msg) ∨
     (∃ r, Prediction.predict_yield (some mp) npStd input_data =
        Prediction.PredictResult.success r)) ∧
    (∀ e, Prediction.predictBody mp npStd input_data = Except.error e →
      Prediction.predict_yield (some mp) npStd input_data =
        Prediction.PredictResult.failure ("Prediction failed: " ++ e)) ∧
    (∀ r, Prediction.predictBody mp npStd input_data = Except.ok r →
      Prediction.predict_yield (some mp) npStd input_data =
        Prediction.PredictResult.success r) := by
  refine ⟨rfl, ?_, ?_, ?_⟩
  · rcases h : Prediction.predictBody mp npStd input_data with e | r
    · exact Or.inl ⟨"Prediction failed: " ++ e, by simp [Prediction.predict_yield, h]⟩
    · exact Or.inr ⟨r, by simp [Prediction.predict_yield, h]⟩
  · intro e he
    simp [Prediction.predict_yield, he]
  · intro r hr
    simp [Prediction.predict_yield, hr]

/-- Witness for C7: a concrete one-feature package and an input whose
`temperature` is a string, so feature engineering raises `TypeError` and the
result is the error dictionary. -/
theorem C7_witness :
    Prediction.predict_yield
      (some ⟨"m", ["temperature"], [], none, false, fun _ => Except.ok 0, none⟩)
      (fun _ => 0)
      (fun k => if k = "temperature" then some (.str "hot") else none) =
      Prediction.PredictResult.failure ("Prediction failed: " ++ "TypeError") :=
  (C7_predict_yield_error_shape
      ⟨"m", ["temperature"], [], none, false, fun _ => Except.ok 0, none⟩
      (fun _ => 0)
      (fun k => if k = "temperature" then some (.str "hot") else none)).2.2.1
    "TypeError" rfl

/-! ### Claims C8 and C9 -/

/-- Characterisation of a member of the `get_crop_recommendations` output:
it comes from a database crop that passed both `continue` guards, carries the
title-cased crop name, and carries the location/size suitability score. -/
theorem mem_get_crop_recommendations {latitude longitude farm_size : ℚ}
    {current_crop season : String} {r : CropApi.CropRecommendation}
    (hr : r ∈ CropApi.get_crop_recommendations latitude longitude current_crop
      farm_size season) :
    ∃ cd, cd ∈ CropApi.crop_database ∧
      pyLower cd.1 ≠ pyLower current_crop ∧
      r.crop_name = pyTitle cd.1 ∧
      r.suitability_score = pyRound 2 (min 1.0 ((0.7 : ℚ)
        + (if 30.5 ≤ latitude ∧ latitude ≤ 31.5 ∧ 75.0 ≤ longitude ∧ longitude ≤ 76.5
           then 0.2 else 0)
        + (if farm_size ≥ 10 then 0.1 else 0))) := by
  unfold CropApi.get_crop_recommendations at hr
  dsimp only at hr
  have h1 := List.mem_of_mem_take hr
  have h2 := (List.perm_insertionSort CropApi.recBefore _).mem_iff.mp h1
  rcases List.mem_map.mp h2 with ⟨cd, hcdf, rfl⟩
  rcases List.mem_filter.mp hcdf with ⟨hdb, hpred⟩
  rw [decide_eq_true_iff] at hpred
  exact ⟨cd, hdb, hpred.1, rfl, rfl⟩

/-- Title-casing the (lowercase) database crop names commutes with
lower-casing. -/
theorem pyLower_pyTitle_db : ∀ cd ∈ CropApi.crop_database,
    pyLower (pyTitle cd.1) = pyLower cd.1 := by decide

/-- C8: `get_crop_recommendations` never recommends the input crop
(case-insensitively), returns at most 5 entries, and the returned list is
sorted descending by the pair (suitability_score, expected_yield) with ties
on suitability broken by expected yield (`recBefore` is exactly that
descending lexicographic comparison). -/
theorem C8_recommendations_exclude_current_sorted_top5
    (latitude longitude : ℚ) (current_crop : String) (farm_size : ℚ) (season : String) :
    (∀ r ∈ CropApi.get_crop_recommendations latitude longitude current_crop
        farm_size season, pyLower r.crop_name ≠ pyLower current_crop) ∧
    (CropApi.get_crop_recommendations latitude longitude current_crop
        farm_size season).length ≤ 5 ∧
    List.Pairwise CropApi.recBefore
      (CropApi.get_crop_recommendations latitude longitude current_crop
        farm_size season) := by
  refine ⟨?_, ?_, ?_⟩
  · intro r hr
    rcases mem_get_crop_recommendations hr with ⟨cd, hdb, hne, hname, _⟩
    rw [hname, pyLower_pyTitle_db cd hdb]
    exact hne
  · unfold CropApi.get_crop_recommendations
    dsimp only
    simp [List.length_take]
  · unfold CropApi.get_crop_recommendations
    dsimp only
    exact List.Pairwise.sublist (List.take_sublist 5 _)
      (List.sorted_insertionSort CropApi.recBefore _)

/-- C9: every suitability score equals the base 0.7 plus 0.2 for the central
Punjab bounding box plus 0.1 for a farm of at least 10 acres, capped at 1.0;
consequently every returned score is one of 0.7, 0.8, 0.9, 1.0. -/
theorem C9_suitability_scores (latitude longitude : ℚ) (current_crop : String)
    (farm_size : ℚ) (season : String) :
    ∀ r ∈ CropApi.get_crop_recommendations latitude longitude current_crop
        farm_size season,
      r.suitability_score = pyRound 2 (min 1.0 ((0.7 : ℚ)
        + (if 30.5 ≤ latitude ∧ latitude ≤ 31.5 ∧ 75.0 ≤ longitude ∧ longitude ≤ 76.5
           then 0.2 else 0)
        + (if farm_size ≥ 10 then 0.1 else 0))) ∧
      (r.suitability_score = 0.7 ∨ r.suitability_score = 0.8 ∨
       r.suitability_score = 0.9 ∨ r.suitability_score = 1) := by
  intro r hr
  rcases mem_get_crop_recommendations hr with ⟨cd, _, _, _, hscore⟩
  refine ⟨hscore, ?_⟩
  rw [hscore]
  by_cases hbox : 30.5 ≤ latitude ∧ latitude ≤ 31.5 ∧ 75.0 ≤ longitude ∧ longitude ≤ 76.5 <;>
    by_cases hfarm : farm_size ≥ (10 : ℚ)
  · rw [if_pos hbox, if_pos hfarm,
      (show min (1.0 : ℚ) ((0.7 : ℚ) + 0.2 + 0.1) = 1 by norm_num)]
    right; right; right
    exact pyRound_eq_self 100 (by norm_num)
  · rw [if_pos hbox, if_neg hfarm,
      (show min (1.0 : ℚ) ((0.7 : ℚ) + 0.2 + 0) = 0.9 by norm_num)]
    right; right; left
    exact pyRound_eq_self 90 (by norm_num)
  · rw [if_neg hbox, if_pos hfarm,
      (show min (1.0 : ℚ) ((0.7 : ℚ) + 0 + 0.1) = 0.8 by norm_num)]
    right; left
    exact pyRound_eq_self 80 (by norm_num)
  · rw [if_neg hbox, if_neg hfarm,
      (show min (1.0 : ℚ) ((0.7 : ℚ) + 0 + 0) = 0.7 by norm_num)]
    left
    exact pyRound_eq_self 70 (by norm_num)

/-- The concrete call used by the C8/C9 witnesses returns a nonempty list:
with current crop "wheat" in the rabi season, five database crops pass both
guards. -/
theorem recsWheatRabi_ne_nil :
    CropApi.get_crop_recommendations 31 (151/2) "wheat" 5 "rabi" ≠ [] := by
  have hlen :
      (CropApi.get_crop_recommendations 31 (151/2) "wheat" 5 "rabi").length = 5 := by
    unfold CropApi.get_crop_recommendations
    dsimp only
    rw [List.length_take, List.length_insertionSort, List.length_map]
    decide
  intro h
  rw [h] at hlen
  simp at hlen

/-- Witness for C8: the top recommendation for a wheat request is not wheat. -/
theorem C8_witness :
    pyLower ((CropApi.get_crop_recommendations 31 (151/2) "wheat" 5 "rabi").head
      recsWheatRabi_ne_nil).crop_name ≠ pyLower "wheat" :=
  (C8_recommendations_exclude_current_sorted_top5 31 (151/2) "wheat" 5 "rabi").1 _
    (List.head_mem recsWheatRabi_ne_nil)

/-- Witness for C9: at latitude 31, longitude 75.5 (inside the central
Punjab box) and a 5-acre farm, the top recommendation has a suitability score
one of the four claimed values. -/
theorem C9_witness :
    ((CropApi.get_crop_recommendations 31 (151/2) "wheat" 5 "rabi").head
        recsWheatRabi_ne_nil).suitability_score = 0.7 ∨
    ((CropApi.get_crop_recommendations 31 (151/2) "wheat" 5 "rabi").head
        recsWheatRabi_ne_nil).suitability_score = 0.8 ∨
    ((CropApi.get_crop_recommendations 31 (151/2) "wheat" 5 "rabi").head
        recsWheatRabi_ne_nil).suitability_score = 0.9 ∨
    ((CropApi.get_crop_recommendations 31 (151/2) "wheat" 5 "rabi").head
        recsWheatRabi_ne_nil).suitability_score = 1 :=
  ((C9_suitability_scores 31 (151/2) "wheat" 5 "rabi") _
    (List.head_mem recsWheatRabi_ne_nil)).2

/-! ### Claim C10 -/

/-- Inversion of a successful `Except` bind. -/
theorem exceptBind_ok {α β : Type} {x : Except String α} {f : α → Except String β} {b : β}
    (h : x >>= f = Except.ok b) : ∃ a, x = Except.ok a ∧ f a = Except.ok b := by
  cases x with
  | error e => simp [Bind.bind, Except.bind] at h
  | ok a => exact ⟨a, rfl, by simpa [Bind.bind, Except.bind] using h⟩

/-- Frame and kharif/rabi facts for the literal dictionary shape produced by
`engineer_features`. -/
theorem engineeredDict_spec (d : Dict) (v1 v2 v3 v4 v5 v6 v7 v8 v9 kh : ℚ) :
    (∀ k, k ∉ Prediction.derivedKeys →
      Prediction.engineeredDict d v1 v2 v3 v4 v5 v6 v7 v8 v9 kh k = d k) ∧
    (∃ a b : ℚ,
      Prediction.engineeredDict d v1 v2 v3 v4 v5 v6 v7 v8 v9 kh "is_kharif" = some (.num a) ∧
      Prediction.engineeredDict d v1 v2 v3 v4 v5 v6 v7 v8 v9 kh "is_rabi" = some (.num b) ∧
      a + b = 1) := by
  constructor
  · intro k hk
    simp only [Prediction.derivedKeys, List.mem_cons, List.not_mem_nil, or_false,
      not_or] at hk
    obtain ⟨h1, h2, h3, h4, h5, h6, h7, h8, h9, h10, h11⟩ := hk
    simp [Prediction.engineeredDict, dinsert, h1, h2, h3, h4, h5, h6, h7, h8, h9, h10, h11]
  · refine ⟨kh, 1 - kh, ?_, ?_, by ring⟩
    · show dinsert _ "is_rabi" _ "is_kharif" = _
      unfold dinsert
      rw [if_neg (by decide)]
      show dinsert _ "is_kharif" _ "is_kharif" = _
      unfold dinsert
      rw [if_pos rfl]
    · show dinsert _ "is_rabi" _ "is_rabi" = _
      unfold dinsert
      rw [if_pos rfl]

/-- C10: `engineer_features` is frame-preserving: on a successful run, every
key other than the eleven derived feature names is mapped to exactly its
input value, and in the output `is_kharif + is_rabi = 1`. -/
theorem C10_engineer_features_frame (d e : Dict)
    (h : Prediction.engineer_features d = Except.ok e) :
    (∀ k, k ∉ Prediction.derivedKeys → e k = d k) ∧
    (∃ a b : ℚ, e "is_kharif" = some (.num a) ∧ e "is_rabi" = some (.num b) ∧
      a + b = 1) := by
  unfold Prediction.engineer_features at h
  obtain ⟨ndvi, -, h⟩ := exceptBind_ok h
  obtain ⟨ndwi, -, h⟩ := exceptBind_ok h
  obtain ⟨oc, -, h⟩ := exceptBind_ok h
  obtain ⟨n_avail, -, h⟩ := exceptBind_ok h
  obtain ⟨p_avail, -, h⟩ := exceptBind_ok h
  obtain ⟨temp, -, h⟩ := exceptBind_ok h
  obtain ⟨rainfall, -, h⟩ := exceptBind_ok h
  dsimp only at h
  split at h
  case isTrue =>
    obtain ⟨humidity, -, h⟩ := exceptBind_ok h
    split at h <;>
    · obtain ⟨drought, -, h⟩ := exceptBind_ok h
      obtain ⟨k_avail, -, h⟩ := exceptBind_ok h
      obtain ⟨np, -, h⟩ := exceptBind_ok h
      obtain ⟨nk, -, h⟩ := exceptBind_ok h
      obtain ⟨pk, -, h⟩ := exceptBind_ok h
      have he := Except.ok.inj h
      subst he
      exact engineeredDict_spec d _ _ _ _ _ _ _ _ _ _
  case isFalse =>
    obtain ⟨drought, -, h⟩ := exceptBind_ok h
    obtain ⟨k_avail, -, h⟩ := exceptBind_ok h
    obtain ⟨np, -, h⟩ := exceptBind_ok h
    obtain ⟨nk, -, h⟩ := exceptBind_ok h
    obtain ⟨pk, -, h⟩ := exceptBind_ok h
    have he := Except.ok.inj h
    subst he
    exact engineeredDict_spec d _ _ _ _ _ _ _ _ _ _

/-- Introduction form of a successful `Except` bind. -/
theorem bind_ok_intro {α β : Type} {x : Except String α} {f : α → Except String β}
    {a : α} {b : β} (h1 : x = Except.ok a) (h2 : f a = Except.ok b) :
    (x >>= f) = Except.ok b := by
  rw [h1]
  exact h2

/-- Evaluation of `engineer_features` on the empty dictionary (for the C10
witness): every fetch falls back to its default and the derived values are
the source expressions recorded in `c10WitnessDict`. -/
theorem c10_eval :
    Prediction.engineer_features (fun _ => none) = Except.ok c10WitnessDict := by
  unfold Prediction.engineer_features
  apply bind_ok_intro rfl
  apply bind_ok_intro rfl
  apply bind_ok_intro rfl
  apply bind_ok_intro rfl
  apply bind_ok_intro rfl
  apply bind_ok_intro rfl
  apply bind_ok_intro rfl
  apply bind_ok_intro rfl
  apply bind_ok_intro rfl
  apply bind_ok_intro rfl
  apply bind_ok_intro (show pyDiv 180 (15 + 1) = Except.ok (180 / (15 + 1)) by
    unfold pyDiv; rw [if_neg (by norm_num)])
  apply bind_ok_intro (show pyDiv 180 (250 + 1) = Except.ok (180 / (250 + 1)) by
    unfold pyDiv; rw [if_neg (by norm_num)])
  apply bind_ok_intro (show pyDiv 15 (250 + 1) = Except.ok (15 / (250 + 1)) by
    unfold pyDiv; rw [if_neg (by norm_num)])
  rfl

/-- Witness for C10: the empty input dictionary; a non-derived key keeps its
input value (`none`) and the output satisfies `is_kharif + is_rabi = 1`. -/
theorem C10_witness :
    c10WitnessDict "crop_type" = none ∧
    (∃ a b : ℚ, c10WitnessDict "is_kharif" = some (.num a) ∧
      c10WitnessDict "is_rabi" = some (.num b) ∧ a + b = 1) := by
  have h := C10_engineer_features_frame (fun _ => none) c10WitnessDict c10_eval
  exact ⟨h.1 "crop_type" (by decide), h.2⟩
